import Mathlib

/-!
# Verification of the pavex user-component database and test-runner snapshot logic

Shallow embedding of:
- `libs/pavexc/src/compiler/analyses/user_components/processed_db.rs`
  (`UserComponentDb::build`, its read accessors, and
  `UserComponentDb::resolve_and_intern_paths`);
- `libs/pavex_test_runner/src/snapshot.rs` (`SnapshotTest::verify`,
  `SnapshotTest::sanitize_output`);
- `libs/pavex/src/blueprint/middleware/wrapping/unregistered.rs`
  (`WrappingMiddleware::new` / `error_handler`).

Support types that live outside the extracted sources (the interner, the
raw database construction, the prebuilt/config type validators) are
modelled from the specification; each such definition is marked
`Modelled from the spec:` in its doc comment.
-/

namespace Pavex

/-- Source location of a registration (`pavex_bp_schema::Location`),
kept abstract: only carried around for error reporting. -/
abbrev Location := String

/-- Raw symbolic identifiers registered against the `Blueprint`
(`pavex_bp_schema::RawIdentifiers`). Kept abstract as the textual
registration path. -/
structure RawIdentifiers where
  path : String
deriving DecidableEq, Repr

/-- Embeds `pavex_bp_schema::Lifecycle`. -/
inductive Lifecycle where
  | singleton
  | requestScoped
  | transient
deriving DecidableEq, Repr

/-- Embeds `pavex_bp_schema::CloningStrategy`. -/
inductive CloningStrategy where
  | neverClone
  | cloneIfNecessary
deriving DecidableEq, Repr

/-- Embeds `crate::compiler::component::DefaultStrategy` for config types. -/
inductive DefaultStrategy where
  | withDefault
  | required
deriving DecidableEq, Repr

/-- Embeds `pavex_bp_schema::Lint`, abstract. -/
abbrev Lint := Nat

/-- Embeds `pavex_bp_schema::LintSetting`, abstract. -/
abbrev LintSetting := Nat

/-- Component ids handed out by the interner (`UserComponentId`):
dense indices into the component arena. -/
abbrev UserComponentId := Nat

/-- The tagged variants of `UserComponent`. Each variant carries the id of
its raw identifiers in the identifiers interner; config types additionally
carry their configuration key. -/
inductive UserComponent where
  | constructor (raw_identifiers_id : Nat)
  | prebuiltType (raw_identifiers_id : Nat)
  | configType (raw_identifiers_id : Nat) (key : String)
  | requestHandler (raw_identifiers_id : Nat)
  | fallback (raw_identifiers_id : Nat)
  | wrappingMiddleware (raw_identifiers_id : Nat)
  | preProcessingMiddleware (raw_identifiers_id : Nat)
  | postProcessingMiddleware (raw_identifiers_id : Nat)
  | errorObserver (raw_identifiers_id : Nat)
deriving DecidableEq, Repr

/-- Embeds `UserComponent::raw_identifiers_id`. -/
def UserComponent.raw_identifiers_id : UserComponent → Nat
  | .constructor n => n
  | .prebuiltType n => n
  | .configType n _ => n
  | .requestHandler n => n
  | .fallback n => n
  | .wrappingMiddleware n => n
  | .preProcessingMiddleware n => n
  | .postProcessingMiddleware n => n
  | .errorObserver n => n

/-- Is this component one of the three constructible kinds (constructor,
prebuilt value, config value) that carry a lifecycle and a cloning
strategy? -/
def UserComponent.isConstructible : UserComponent → Bool
  | .constructor _ => true
  | .prebuiltType _ => true
  | .configType _ _ => true
  | _ => false

/-- Is this component a request handler? -/
def UserComponent.isRequestHandler : UserComponent → Bool
  | .requestHandler _ => true
  | _ => false

/-- First index of `x` in `l`, if any. -/
def idxOf? {α : Type} [DecidableEq α] : List α → α → Option Nat
  | [], _ => none
  | y :: ys, x => if y = x then some 0 else (idxOf? ys x).map (· + 1)

/-- Modelled from the spec: `crate::compiler::interner::Interner`
(its source is outside the extracted files). A dense, append-only arena;
ids are indices into `items`. -/
structure Interner (α : Type) where
  items : List α
deriving DecidableEq, Repr

/-- The empty interner. -/
def Interner.empty {α : Type} : Interner α := ⟨[]⟩

/-- Modelled from the spec: interning de-duplicates — registering a value
that is already present returns the previously interned id instead of
creating a duplicate entry; otherwise the value is appended and its fresh
index returned. -/
def Interner.get_or_intern {α : Type} [DecidableEq α]
    (i : Interner α) (x : α) : Nat × Interner α :=
  match idxOf? i.items x with
  | some n => (n, i)
  | none => (i.items.length, ⟨i.items ++ [x]⟩)

/-- Lookup of an interned id (`Index` impl on the interner). -/
def Interner.lookup {α : Type} (i : Interner α) (n : Nat) : Option α :=
  i.items.get? n

/-- Association-list lookup, standing in for the `HashMap` fields of the
databases (`get` on `ahash::HashMap`). -/
def findA {α : Type} : List (UserComponentId × α) → UserComponentId → Option α
  | [], _ => none
  | (k, v) :: rest, id => if k = id then some v else findA rest id

/-- A lifetime parameter of a type, as distinguished by the diagnostics in
`processed_db.rs` (`named_lifetime_parameters`, `is_elided`, `is_static`). -/
inductive LifetimeParam where
  | named (s : String)
  | elided
  | staticLt
deriving DecidableEq, Repr

/-- Is this lifetime parameter something other than `'static`? -/
def LifetimeParam.isNonStatic : LifetimeParam → Bool
  | .named _ => true
  | .elided => true
  | .staticLt => false

/-- A resolved type, abstracted to the features the prebuilt/config
validation inspects: its lifetime parameters and its unassigned generic
type parameters. -/
structure Ty where
  lifetimes : List LifetimeParam
  unassigned_generics : List String
deriving DecidableEq, Repr

/-- Does the type have a named or elided (possibly non-`'static`)
lifetime parameter? -/
def Ty.hasNonStaticLifetime (ty : Ty) : Bool :=
  ty.lifetimes.any LifetimeParam.isNonStatic

/-- Embeds `crate::compiler::component::PrebuiltTypeValidationError`. -/
inductive PrebuiltTypeValidationError where
  | cannotHaveLifetimeParameters (ty : Ty)
  | cannotHaveUnassignedGenericTypeParameters (ty : Ty)
deriving DecidableEq, Repr

/-- Embeds `crate::compiler::component::ConfigTypeValidationError`. -/
inductive ConfigTypeValidationError where
  | cannotHaveAnyLifetimeParameters (ty : Ty)
  | cannotHaveUnassignedGenericTypeParameters (ty : Ty)
  | invalidKey
deriving DecidableEq, Repr

/-- A validated prebuilt type (`crate::compiler::component::PrebuiltType`). -/
structure PrebuiltType where
  ty : Ty
deriving DecidableEq, Repr

/-- A validated config type (`crate::compiler::component::ConfigType`). -/
structure ConfigType where
  ty : Ty
  key : String
deriving DecidableEq, Repr

/-- Modelled from the spec: `PrebuiltType::new` (source outside the
extracted files). Prebuilt types must be fully concrete and free of any
lifetime shorter than the program's lifetime: a named or elided lifetime
parameter fails validation (`'static` ones are allowed), and so does an
unassigned generic type parameter. -/
def PrebuiltType.new (ty : Ty) : Except PrebuiltTypeValidationError PrebuiltType :=
  if ty.hasNonStaticLifetime then
    .error (.cannotHaveLifetimeParameters ty)
  else if ty.unassigned_generics ≠ [] then
    .error (.cannotHaveUnassignedGenericTypeParameters ty)
  else
    .ok ⟨ty⟩

/-- Modelled from the spec: `ConfigType::new` (source outside the
extracted files). Config types may not have any lifetime parameter at all
(named, elided, or even `'static`), nor unassigned generic type
parameters; the configuration key must also be valid, which we model with
the caller-supplied `keyOk` verdict of the external key validator. -/
def ConfigType.new (ty : Ty) (key : String) (keyOk : Bool) :
    Except ConfigTypeValidationError ConfigType :=
  if ty.lifetimes ≠ [] then
    .error (.cannotHaveAnyLifetimeParameters ty)
  else if ty.unassigned_generics ≠ [] then
    .error (.cannotHaveUnassignedGenericTypeParameters ty)
  else if !keyOk then
    .error .invalidKey
  else
    .ok ⟨ty, key⟩

/-- A resolved import path (`crate::language::ResolvedPath`), abstract. -/
abbrev ResolvedPath := String

/-- Embeds `crate::compiler::resolvers::TypeResolutionError`, abstract. -/
abbrev TypeResolutionError := String

/-- Embeds `crate::compiler::resolvers::CallableResolutionError`: the variants
matched in `UserComponentDb::cannot_resolve_callable_path`. -/
inductive CallableResolutionError where
  | unknownCallable
  | inputParameterResolutionError
  | unsupportedCallableKind
  | outputTypeResolutionError
  | cannotGetCrateData
  | genericParameterResolutionError
deriving DecidableEq, Repr

/-- A compiler diagnostic, abstracted to which helper of
`processed_db.rs` pushed it and for which component. Each helper
(`invalid_prebuilt_type`, `invalid_config_type`,
`cannot_resolve_type_path`, `cannot_resolve_callable_path`) pushes exactly
one diagnostic onto the shared `diagnostics` vector. Diagnostics from
other stages are carried as `other`. -/
inductive Diagnostic where
  | invalidPrebuiltType (id : UserComponentId) (e : PrebuiltTypeValidationError)
  | invalidConfigType (id : UserComponentId) (e : ConfigTypeValidationError)
  | cannotResolveTypePath (id : UserComponentId) (e : TypeResolutionError)
  | cannotResolveCallablePath (id : UserComponentId) (e : CallableResolutionError)
  | other (n : Nat)
deriving DecidableEq, Repr

/-- The database of callable computations
(`crate::compiler::analyses::computations::ComputationDb`), abstracted to
the list of component ids whose callables were successfully resolved and
interned, in interning order. -/
abbrev ComputationDb := List UserComponentId

/-- The prebuilt-type database
(`crate::compiler::analyses::prebuilt_types::PrebuiltTypeDb`): an interner
of validated types plus the binding from each component id to its
interned type id. -/
structure PrebuiltTypeDb where
  interner : Interner PrebuiltType
  id2type_id : List (UserComponentId × Nat)
deriving DecidableEq, Repr

/-- Embeds `PrebuiltTypeDb::get_or_intern`. -/
def PrebuiltTypeDb.get_or_intern (db : PrebuiltTypeDb) (p : PrebuiltType)
    (id : UserComponentId) : PrebuiltTypeDb :=
  let (n, i) := db.interner.get_or_intern p
  ⟨i, db.id2type_id ++ [(id, n)]⟩

/-- The config-type database
(`crate::compiler::analyses::config_types::ConfigTypeDb`). -/
structure ConfigTypeDb where
  interner : Interner ConfigType
  id2type_id : List (UserComponentId × Nat)
deriving DecidableEq, Repr

/-- Embeds `ConfigTypeDb::get_or_intern`. -/
def ConfigTypeDb.get_or_intern (db : ConfigTypeDb) (c : ConfigType)
    (id : UserComponentId) : ConfigTypeDb :=
  let (n, i) := db.interner.get_or_intern c
  ⟨i, db.id2type_id ++ [(id, n)]⟩

/-- The scope tree (`ScopeGraph`), abstracted to a root id and
parent pointers. -/
structure ScopeGraph where
  root : Nat
  parent : List (Nat × Nat)
deriving DecidableEq, Repr

/-- A domain guard on a fallback, abstract. -/
abbrev DomainGuard := String

/-- The raw user-component database
(`crate::compiler::analyses::user_components::raw_db::RawUserComponentDb`):
the fields destructured by `UserComponentDb::build`. Its construction from
the `Blueprint` lives outside the extracted files. -/
structure RawUserComponentDb where
  component_interner : Interner UserComponent
  identifiers_interner : Interner RawIdentifiers
  id2locations : List (UserComponentId × Location)
  id2lifecycle : List (UserComponentId × Lifecycle)
  id2lints : List (UserComponentId × List (Lint × LintSetting))
  id2cloning_strategy : List (UserComponentId × CloningStrategy)
  config_id2default_strategy : List (UserComponentId × DefaultStrategy)
  handler_id2middleware_ids : List (UserComponentId × List UserComponentId)
  handler_id2error_observer_ids : List (UserComponentId × List UserComponentId)
  fallback_id2domain_guard : List (UserComponentId × Option DomainGuard)
  fallback_id2path_prefix : List (UserComponentId × Option String)
  domain_guard2locations : List (DomainGuard × List Location)
deriving DecidableEq, Repr

/-- Embeds `RawUserComponentDb::iter`: the components with their ids, in
interning order. -/
def RawUserComponentDb.iter (raw : RawUserComponentDb) :
    List (UserComponentId × UserComponent) :=
  raw.component_interner.items.enum

/-- The outcome functions of the external resolution services consumed by
`resolve_and_intern_paths`: the resolved-path database built by the
earlier stage, `resolve_type_path`, the callable resolution performed by
`ComputationDb::resolve_and_intern`, and the config-key validator. -/
structure ResolutionEnv where
  resolved_path_db : UserComponentId → ResolvedPath
  resolve_type_path : ResolvedPath → Except TypeResolutionError Ty
  resolve_callable : ResolvedPath → Except CallableResolutionError Unit
  config_key_ok : String → Bool

/-- The mutable state threaded through `resolve_and_intern_paths`: the
three type/computation databases plus the shared diagnostics vector. -/
structure ResolveState where
  computation_db : ComputationDb
  prebuilt_type_db : PrebuiltTypeDb
  config_type_db : ConfigTypeDb
  diagnostics : List Diagnostic
deriving DecidableEq, Repr

/-- One iteration of the loop in
`UserComponentDb::resolve_and_intern_paths`: prebuilt types and config
types are resolved as types and validated; every other component kind is
resolved as a callable. Each failure pushes exactly one diagnostic (via
`invalid_prebuilt_type`, `invalid_config_type`, `cannot_resolve_type_path`
or `cannot_resolve_callable_path`) and leaves the databases untouched. -/
def resolveOne (env : ResolutionEnv) (st : ResolveState)
    (idc : UserComponentId × UserComponent) : ResolveState :=
  let (raw_id, user_component) := idc
  let resolved_path := env.resolved_path_db raw_id
  match user_component with
  | .prebuiltType _ =>
    match env.resolve_type_path resolved_path with
    | .ok ty =>
      match PrebuiltType.new ty with
      | .ok prebuilt =>
        { st with prebuilt_type_db := st.prebuilt_type_db.get_or_intern prebuilt raw_id }
      | .error e =>
        { st with diagnostics := st.diagnostics ++ [.invalidPrebuiltType raw_id e] }
    | .error e =>
      { st with diagnostics := st.diagnostics ++ [.cannotResolveTypePath raw_id e] }
  | .configType _ key =>
    match env.resolve_type_path resolved_path with
    | .ok ty =>
      match ConfigType.new ty key (env.config_key_ok key) with
      | .ok config =>
        { st with config_type_db := st.config_type_db.get_or_intern config raw_id }
      | .error e =>
        { st with diagnostics := st.diagnostics ++ [.invalidConfigType raw_id e] }
    | .error e =>
      { st with diagnostics := st.diagnostics ++ [.cannotResolveTypePath raw_id e] }
  | _ =>
    match env.resolve_callable resolved_path with
    | .ok _ =>
      { st with computation_db := st.computation_db ++ [raw_id] }
    | .error e =>
      { st with diagnostics := st.diagnostics ++ [.cannotResolveCallablePath raw_id e] }

/-- Embeds `UserComponentDb::resolve_and_intern_paths`: the loop over every
component of the raw database, in interning order. -/
def resolve_and_intern_paths (env : ResolutionEnv) (raw_db : RawUserComponentDb)
    (st : ResolveState) : ResolveState :=
  raw_db.iter.foldl (resolveOne env) st

/-- The diagnostics that `resolveOne` appends for a single component:
one per failing component, none for a component that resolves. -/
def componentDiags (env : ResolutionEnv)
    (idc : UserComponentId × UserComponent) : List Diagnostic :=
  let (raw_id, user_component) := idc
  let resolved_path := env.resolved_path_db raw_id
  match user_component with
  | .prebuiltType _ =>
    match env.resolve_type_path resolved_path with
    | .ok ty =>
      match PrebuiltType.new ty with
      | .ok _ => []
      | .error e => [.invalidPrebuiltType raw_id e]
    | .error e => [.cannotResolveTypePath raw_id e]
  | .configType _ key =>
    match env.resolve_type_path resolved_path with
    | .ok ty =>
      match ConfigType.new ty key (env.config_key_ok key) with
      | .ok _ => []
      | .error e => [.invalidConfigType raw_id e]
    | .error e => [.cannotResolveTypePath raw_id e]
  | _ =>
    match env.resolve_callable resolved_path with
    | .ok _ => []
    | .error e => [.cannotResolveCallablePath raw_id e]

/-- The component id that `resolveOne` binds in the prebuilt-type
database, if any. -/
def componentPrebuiltBinding (env : ResolutionEnv)
    (idc : UserComponentId × UserComponent) : Option UserComponentId :=
  match idc.2 with
  | .prebuiltType _ =>
    match env.resolve_type_path (env.resolved_path_db idc.1) with
    | .ok ty => match PrebuiltType.new ty with
      | .ok _ => some idc.1
      | .error _ => none
    | .error _ => none
  | _ => none

/-- The component id that `resolveOne` binds in the config-type
database, if any. -/
def componentConfigBinding (env : ResolutionEnv)
    (idc : UserComponentId × UserComponent) : Option UserComponentId :=
  match idc.2 with
  | .configType _ key =>
    match env.resolve_type_path (env.resolved_path_db idc.1) with
    | .ok ty => match ConfigType.new ty key (env.config_key_ok key) with
      | .ok _ => some idc.1
      | .error _ => none
    | .error _ => none
  | _ => none

/-- The component id that `resolveOne` interns in the computation
database, if any. -/
def componentCallableBinding (env : ResolutionEnv)
    (idc : UserComponentId × UserComponent) : Option UserComponentId :=
  match idc.2 with
  | .prebuiltType _ => none
  | .configType _ _ => none
  | _ =>
    match env.resolve_callable (env.resolved_path_db idc.1) with
    | .ok _ => some idc.1
    | .error _ => none

/-- The router built by `Router::new`, abstracted to its route table. -/
structure Router where
  routes : List (String × UserComponentId)
deriving DecidableEq, Repr

/-- Embeds `UserComponentDb` (the processed database): the fields moved over
from the raw database by `UserComponentDb::build`. -/
structure UserComponentDb where
  component_interner : Interner UserComponent
  identifiers_interner : Interner RawIdentifiers
  id2locations : List (UserComponentId × Location)
  id2lifecycle : List (UserComponentId × Lifecycle)
  id2lints : List (UserComponentId × List (Lint × LintSetting))
  id2cloning_strategy : List (UserComponentId × CloningStrategy)
  config_id2default_strategy : List (UserComponentId × DefaultStrategy)
  handler_id2middleware_ids : List (UserComponentId × List UserComponentId)
  handler_id2error_observer_ids : List (UserComponentId × List UserComponentId)
  scope_graph : ScopeGraph
deriving DecidableEq, Repr

/-- The final destructure-and-repack of `UserComponentDb::build`: the
processed database takes ownership of the raw database's fields (the
fallback/domain bookkeeping is discarded) together with the scope graph. -/
def UserComponentDb.fromRaw (raw : RawUserComponentDb) (sg : ScopeGraph) :
    UserComponentDb where
  component_interner := raw.component_interner
  identifiers_interner := raw.identifiers_interner
  id2locations := raw.id2locations
  id2lifecycle := raw.id2lifecycle
  id2lints := raw.id2lints
  id2cloning_strategy := raw.id2cloning_strategy
  config_id2default_strategy := raw.config_id2default_strategy
  handler_id2middleware_ids := raw.handler_id2middleware_ids
  handler_id2error_observer_ids := raw.handler_id2error_observer_ids
  scope_graph := sg

/-!
Read accessors of `UserComponentDb`. Every accessor takes the database
by shared reference (`&self`) in the source; we embed each one as a
function returning its result *and* the database it leaves behind, so
that the after-state is part of the statement of the frame property.
-/

/-- Embeds `UserComponentDb::iter`. -/
def UserComponentDb.iter (db : UserComponentDb) :
    List (UserComponentId × UserComponent) × UserComponentDb :=
  (db.component_interner.items.enum, db)

/-- Embeds `UserComponentDb::constructors`. -/
def UserComponentDb.constructors (db : UserComponentDb) :
    List (UserComponentId × UserComponent) × UserComponentDb :=
  (db.component_interner.items.enum.filter
    (fun p => match p.2 with | .constructor _ => true | _ => false), db)

/-- Embeds `UserComponentDb::prebuilt_types`. -/
def UserComponentDb.prebuilt_types (db : UserComponentDb) :
    List (UserComponentId × UserComponent) × UserComponentDb :=
  (db.component_interner.items.enum.filter
    (fun p => match p.2 with | .prebuiltType _ => true | _ => false), db)

/-- Embeds `UserComponentDb::config_types`. -/
def UserComponentDb.config_types (db : UserComponentDb) :
    List (UserComponentId × UserComponent) × UserComponentDb :=
  (db.component_interner.items.enum.filter
    (fun p => match p.2 with | .configType _ _ => true | _ => false), db)

/-- Embeds `UserComponentDb::request_handlers`: routes and fallbacks. -/
def UserComponentDb.request_handlers (db : UserComponentDb) :
    List (UserComponentId × UserComponent) × UserComponentDb :=
  (db.component_interner.items.enum.filter
    (fun p => match p.2 with
      | .requestHandler _ => true
      | .fallback _ => true
      | _ => false), db)

/-- Embeds `UserComponentDb::wrapping_middlewares`. -/
def UserComponentDb.wrapping_middlewares (db : UserComponentDb) :
    List (UserComponentId × UserComponent) × UserComponentDb :=
  (db.component_interner.items.enum.filter
    (fun p => match p.2 with | .wrappingMiddleware _ => true | _ => false), db)

/-- Embeds `UserComponentDb::post_processing_middlewares`. -/
def UserComponentDb.post_processing_middlewares (db : UserComponentDb) :
    List (UserComponentId × UserComponent) × UserComponentDb :=
  (db.component_interner.items.enum.filter
    (fun p => match p.2 with | .postProcessingMiddleware _ => true | _ => false), db)

/-- Embeds `UserComponentDb::pre_processing_middlewares`. -/
def UserComponentDb.pre_processing_middlewares (db : UserComponentDb) :
    List (UserComponentId × UserComponent) × UserComponentDb :=
  (db.component_interner.items.enum.filter
    (fun p => match p.2 with | .preProcessingMiddleware _ => true | _ => false), db)

/-- Embeds `UserComponentDb::error_observers`. -/
def UserComponentDb.error_observers (db : UserComponentDb) :
    List (UserComponentId × UserComponent) × UserComponentDb :=
  (db.component_interner.items.enum.filter
    (fun p => match p.2 with | .errorObserver _ => true | _ => false), db)

/-- Embeds `UserComponentDb::get_lifecycle` (the source indexes the map and
panics on a missing entry; we return the lookup result). -/
def UserComponentDb.get_lifecycle (db : UserComponentDb) (id : UserComponentId) :
    Option Lifecycle × UserComponentDb :=
  (findA db.id2lifecycle id, db)

/-- Embeds `UserComponentDb::get_location`. -/
def UserComponentDb.get_location (db : UserComponentDb) (id : UserComponentId) :
    Option Location × UserComponentDb :=
  (findA db.id2locations id, db)

/-- Embeds `UserComponentDb::get_cloning_strategy`. -/
def UserComponentDb.get_cloning_strategy (db : UserComponentDb) (id : UserComponentId) :
    Option CloningStrategy × UserComponentDb :=
  (findA db.id2cloning_strategy id, db)

/-- Embeds `UserComponentDb::get_default_strategy`. -/
def UserComponentDb.get_default_strategy (db : UserComponentDb) (id : UserComponentId) :
    Option DefaultStrategy × UserComponentDb :=
  (findA db.config_id2default_strategy id, db)

/-- Embeds `UserComponentDb::scope_graph` (the accessor, distinct from the
field projection). -/
def UserComponentDb.scope_graph_ref (db : UserComponentDb) :
    ScopeGraph × UserComponentDb :=
  (db.scope_graph, db)

/-- Embeds `UserComponentDb::get_raw_callable_identifiers`. -/
def UserComponentDb.get_raw_callable_identifiers (db : UserComponentDb)
    (id : UserComponentId) : Option RawIdentifiers × UserComponentDb :=
  (match db.component_interner.lookup id with
   | some c => db.identifiers_interner.lookup c.raw_identifiers_id
   | none => none, db)

/-- Embeds `UserComponentDb::get_middleware_ids`. -/
def UserComponentDb.get_middleware_ids (db : UserComponentDb) (id : UserComponentId) :
    Option (List UserComponentId) × UserComponentDb :=
  (findA db.handler_id2middleware_ids id, db)

/-- Embeds `UserComponentDb::get_lints`. -/
def UserComponentDb.get_lints (db : UserComponentDb) (id : UserComponentId) :
    Option (List (Lint × LintSetting)) × UserComponentDb :=
  (findA db.id2lints id, db)

/-- Embeds `UserComponentDb::get_error_observer_ids`. -/
def UserComponentDb.get_error_observer_ids (db : UserComponentDb) (id : UserComponentId) :
    Option (List UserComponentId) × UserComponentDb :=
  (findA db.handler_id2error_observer_ids id, db)

/-- The `Index<UserComponentId>` impl on `UserComponentDb`. -/
def UserComponentDb.index (db : UserComponentDb) (id : UserComponentId) :
    Option UserComponent × UserComponentDb :=
  (db.component_interner.lookup id, db)

/-- The stages of `UserComponentDb::build`, in source order. -/
inductive Stage where
  | rawIngestion
  | pathResolution
  | routing
  | docsPrecompute
  | resolveAndIntern
deriving DecidableEq, Repr

/-- The outcomes of the pipeline steps of `UserComponentDb::build` whose
bodies live outside the extracted sources (`RawUserComponentDb::build`,
`ResolvedPathDb::build`, `Router::new`, the doc bootstrap inside
`precompute_crate_docs`), given as data: the diagnostics each pushes, the
raw database and scope graph produced by ingestion, the router (or `none`
when `Router::new` returns `Err`), and the external resolution services
used by `resolve_and_intern_paths`. -/
structure BuildStages where
  raw_diags : List Diagnostic
  raw_db : RawUserComponentDb
  scope_graph : ScopeGraph
  resolved_path_diags : List Diagnostic
  router_diags : List Diagnostic
  router : Option Router
  docs_diags : List Diagnostic
  env : ResolutionEnv

/-- Embeds `UserComponentDb::build`: raw ingestion, path resolution and routing
run back to back; `Router::new`'s own failure propagates immediately (the
`?` operator); then `exit_on_errors!` checks the accumulated diagnostics;
doc precomputation is followed by a second check; `resolve_and_intern_paths`
by a third; only then is the processed database assembled and returned.
The first output component records which stages ran, the second is the
final content of the shared `diagnostics` vector, the third the returned
`Result`. -/
def UserComponentDb.build (s : BuildStages) (computation_db : ComputationDb)
    (prebuilt_type_db : PrebuiltTypeDb) (config_type_db : ConfigTypeDb)
    (diagnostics : List Diagnostic) :
    List Stage × List Diagnostic × Except Unit (Router × UserComponentDb) :=
  let diagnostics := diagnostics ++ s.raw_diags
  let ran := [Stage.rawIngestion]
  let diagnostics := diagnostics ++ s.resolved_path_diags
  let ran := ran ++ [Stage.pathResolution]
  let diagnostics := diagnostics ++ s.router_diags
  let ran := ran ++ [Stage.routing]
  match s.router with
  | none => (ran, diagnostics, .error ())
  | some router =>
    if !diagnostics.isEmpty then (ran, diagnostics, .error ())
    else
      let diagnostics := diagnostics ++ s.docs_diags
      let ran := ran ++ [Stage.docsPrecompute]
      if !diagnostics.isEmpty then (ran, diagnostics, .error ())
      else
        let st := resolve_and_intern_paths s.env s.raw_db
          ⟨computation_db, prebuilt_type_db, config_type_db, diagnostics⟩
        let diagnostics := st.diagnostics
        let ran := ran ++ [Stage.resolveAndIntern]
        if !diagnostics.isEmpty then (ran, diagnostics, .error ())
        else
          (ran, diagnostics, .ok (router, UserComponentDb.fromRaw s.raw_db s.scope_graph))

/-- The build pipeline as the amended specification describes it:
diagnostics are checked at three points — after routing (one batched
check covering raw ingestion, path resolution and routing), after doc
precomputation, and after type resolution and interning — and a failure
of `Router::new` itself aborts immediately. At each checkpoint, non-empty
accumulated diagnostics yield `Err(())` without running any later
stage. -/
def stagedBuildSpec (s : BuildStages) (computation_db : ComputationDb)
    (prebuilt_type_db : PrebuiltTypeDb) (config_type_db : ConfigTypeDb)
    (diagnostics : List Diagnostic) :
    List Stage × List Diagnostic × Except Unit (Router × UserComponentDb) :=
  let firstBatch := [Stage.rawIngestion, Stage.pathResolution, Stage.routing]
  let afterRouting := diagnostics ++ s.raw_diags ++ s.resolved_path_diags ++ s.router_diags
  match s.router with
  | none => (firstBatch, afterRouting, .error ())
  | some router =>
    if !afterRouting.isEmpty then (firstBatch, afterRouting, .error ())
    else if !s.docs_diags.isEmpty then
      (firstBatch ++ [Stage.docsPrecompute], s.docs_diags, .error ())
    else
      let st := resolve_and_intern_paths s.env s.raw_db
        ⟨computation_db, prebuilt_type_db, config_type_db, []⟩
      if !st.diagnostics.isEmpty then
        (firstBatch ++ [Stage.docsPrecompute, Stage.resolveAndIntern],
         st.diagnostics, .error ())
      else
        (firstBatch ++ [Stage.docsPrecompute, Stage.resolveAndIntern], [],
         .ok (router, UserComponentDb.fromRaw s.raw_db s.scope_graph))

/-- Modelled from the spec: the invariants that the raw-database
construction (`RawUserComponentDb::build`, outside the extracted sources)
establishes — every constructor, prebuilt value and config value has a
lifecycle entry and a cloning-strategy entry, no other kind has a
cloning-strategy entry, and every request handler has middleware and
error-observer id lists. -/
def RawUserComponentDb.wellFormed (raw : RawUserComponentDb) : Bool :=
  raw.iter.all (fun idc =>
    (if idc.2.isConstructible then
      (findA raw.id2cloning_strategy idc.1).isSome
        && (findA raw.id2lifecycle idc.1).isSome
    else
      (findA raw.id2cloning_strategy idc.1).isNone)
    &&
    (if idc.2.isRequestHandler then
      (findA raw.handler_id2middleware_ids idc.1).isSome
        && (findA raw.handler_id2error_observer_ids idc.1).isSome
    else true))

/-!
`libs/pavex_test_runner/src/snapshot.rs`.
-/

/-- The escape character opening the ANSI sequences that the snapshot
sanitizer looks for. -/
def esc : Char := Char.ofNat 27

/-- The literal text matched by the `prefix` capture group of the path
normalization regex in `SnapshotTest::sanitize_output`. -/
def ansiPathMarker : String := "[\x1b[36;1;4m"

/-- The styled `note: Rerun with PAVEX_DEBUG=true ...` line that
`sanitize_output` filters out. -/
def pavexDebugNote : String :=
  "\x1b[1m\x1b[36mnote\x1b[0m\x1b[1m:\x1b[0m Rerun with `PAVEX_DEBUG=true` to display more error details"

/-- Index of the last occurrence of `c` in `l`, if any. -/
def lastIdxOf (c : Char) : List Char → Option Nat
  | [] => none
  | x :: xs =>
    match lastIdxOf c xs with
    | some n => some (n + 1)
    | none => if x = c then some 0 else none

/-- One line put through the path-normalization regex of
`sanitize_output`: after the first occurrence of the ANSI path marker,
the greedy `.*` capture extends to just before the last escape character
of the line (which the regex consumes but the replacement drops), and
backslashes in the captured path are turned into forward slashes. A line
without the marker, or without a later escape character, has no match and
is left unchanged. -/
def normalizeLine (line : String) : String :=
  match line.splitOn ansiPathMarker with
  | [] => line
  | [_] => line
  | first :: rest =>
    let tail := String.intercalate ansiPathMarker rest
    match lastIdxOf esc tail.data with
    | none => line
    | some j =>
      let path := (String.mk (tail.data.take j)).map
        (fun ch => if ch = '\\' then '/' else ch)
      let suffix := String.mk (tail.data.drop (j + 1))
      first ++ ansiPathMarker ++ path ++ suffix

/-- Embeds `SnapshotTest::sanitize_output`: normalize line endings, normalize
path separators in the styled path lines, drop blank lines and the
`PAVEX_DEBUG` note line, trim trailing whitespace, and re-join with
`\n`. -/
def sanitize_output (output : String) : String :=
  let output := output.replace "\r\n" "\n"
  let output := String.intercalate "\n" ((output.splitOn "\n").map normalizeLine)
  String.intercalate "\n"
    ((output.splitOn "\n").filterMap (fun l =>
      if l.trim.isEmpty || l.startsWith pavexDebugNote then none else some l.trimRight))

/-- Embeds `SnapshotTest`: the expectation path and the hashed crate name. The
path is abstract; the filesystem around it is modelled by
`SnapshotFs`. -/
structure SnapshotTest where
  expectation_path : String
  app_name_with_hash : String
deriving DecidableEq, Repr

/-- The slice of the filesystem that `SnapshotTest::verify` touches: the
content of the expectation file (`none` when reading fails with
`NotFound`) and the content of the sibling `.snap` file. -/
structure SnapshotFs where
  expectation : Option String
  snap : Option String
deriving DecidableEq, Repr

/-- Embeds `SnapshotTest::verify`: replace the hashed app name in the actual
output, read the expectation (a missing file reads as the empty string),
sanitize both, then compare; on a mismatch the sanitized actual value is
written to the sibling `.snap` file and `Err(())` is returned, on a match
the `.snap` file is removed and `Ok(())` is returned. -/
def SnapshotTest.verify (t : SnapshotTest) (actual : String) (fs : SnapshotFs) :
    Except Unit Unit × SnapshotFs :=
  let actual := actual.replace t.app_name_with_hash "app"
  let expected := match fs.expectation with
    | some s => s
    | none => ""
  let expected := sanitize_output expected
  let actual := sanitize_output actual
  if expected ≠ actual then
    (.error (), { fs with snap := some actual })
  else
    (.ok (), { fs with snap := none })

/-!
`libs/pavex/src/blueprint/middleware/wrapping/unregistered.rs`.
-/

/-- Embeds `pavex_bp_schema::Callable`: the callable registered against the
blueprint, with the location it was registered at. -/
structure Callable where
  ident : RawIdentifiers
  registered_at : Location
deriving DecidableEq, Repr

/-- Embeds `WithLocation<T>` from the blueprint reflection module: a value
together with the caller location captured at the registration site. -/
structure WithLocation (α : Type) where
  value : α
  location : Location
deriving DecidableEq, Repr

/-- Modelled from the spec: `raw_identifiers2callable` from
`blueprint/conversions.rs` (outside the extracted sources) packages raw
identifiers and their registration location into a `Callable`. -/
def raw_identifiers2callable (r : WithLocation RawIdentifiers) : Callable :=
  ⟨r.value, r.location⟩

/-- An unregistered `WrappingMiddleware`: its callable and an optional
error handler. -/
structure WrappingMiddleware where
  callable : Callable
  error_handler : Option Callable
deriving DecidableEq, Repr

/-- Embeds `WrappingMiddleware::new`. -/
def WrappingMiddleware.new (callable : WithLocation RawIdentifiers) :
    WrappingMiddleware :=
  { callable := raw_identifiers2callable callable, error_handler := none }

/-- Embeds `WrappingMiddleware::error_handler` (the builder method; named
`set_error_handler` here because the field projection already carries the
source name). -/
def WrappingMiddleware.set_error_handler (m : WrappingMiddleware)
    (error_handler : WithLocation RawIdentifiers) : WrappingMiddleware :=
  { m with error_handler := some (raw_identifiers2callable error_handler) }

/-!
Concrete fixtures used to evaluate the theorems on closed inputs.
-/

/-- A resolution environment in which every path resolves. -/
def exEnv : ResolutionEnv where
  resolved_path_db := fun _ => "app::f"
  resolve_type_path := fun _ => .ok ⟨[], []⟩
  resolve_callable := fun _ => .ok ()
  config_key_ok := fun _ => true

/-- A trivial scope graph: just the root scope. -/
def exScopeGraph : ScopeGraph := ⟨0, []⟩

/-- An empty route table. -/
def exRouter : Router := ⟨[]⟩

/-- An empty prebuilt-type database. -/
def emptyPrebuiltDb : PrebuiltTypeDb := ⟨Interner.empty, []⟩

/-- An empty config-type database. -/
def emptyConfigDb : ConfigTypeDb := ⟨Interner.empty, []⟩

/-- A small raw database: one constructor (id 0) and one request handler
(id 1), with the metadata entries the invariants require. -/
def exRawDb : RawUserComponentDb where
  component_interner := ⟨[.constructor 0, .requestHandler 1]⟩
  identifiers_interner := ⟨[⟨"app::c"⟩, ⟨"app::h"⟩]⟩
  id2locations := [(0, "src/lib.rs:10"), (1, "src/lib.rs:20")]
  id2lifecycle := [(0, .transient)]
  id2lints := []
  id2cloning_strategy := [(0, .neverClone)]
  config_id2default_strategy := []
  handler_id2middleware_ids := [(1, [])]
  handler_id2error_observer_ids := [(1, [])]
  fallback_id2domain_guard := []
  fallback_id2path_prefix := []
  domain_guard2locations := []

/-- Stage outcomes in which every external step succeeds and pushes no
diagnostics. -/
def exStages : BuildStages where
  raw_diags := []
  raw_db := exRawDb
  scope_graph := exScopeGraph
  resolved_path_diags := []
  router_diags := []
  router := some exRouter
  docs_diags := []
  env := exEnv

/-- Stage outcomes in which raw ingestion pushes one diagnostic while
every later step would succeed. -/
def cexStages : BuildStages := { exStages with raw_diags := [.other 0] }

/-- A resolution environment whose type resolution yields a type with a
named (hence possibly non-`'static`) lifetime parameter. -/
def badEnv : ResolutionEnv where
  resolved_path_db := fun _ => "app::T"
  resolve_type_path := fun _ => .ok ⟨[.named "a"], []⟩
  resolve_callable := fun _ => .ok ()
  config_key_ok := fun _ => true

/-- The empty resolve state: empty databases, no diagnostics. -/
def emptyResolveState : ResolveState := ⟨[], emptyPrebuiltDb, emptyConfigDb, []⟩

end Pavex

namespace Pavex

/-!
## Theorems
-/

/-- If `x` is not in `l`, appending it puts it at index `l.length`. -/
theorem idxOf?_append_self {α : Type} [DecidableEq α] {l : List α} {x : α}
    (h : idxOf? l x = none) : idxOf? (l ++ [x]) x = some l.length := by
  induction l with
  | nil => simp [idxOf?]
  | cons y ys ih =>
    simp only [idxOf?] at h ⊢
    by_cases hy : y = x
    · simp [hy] at h
    · rw [if_neg hy] at h ⊢
      cases hys : idxOf? ys x with
      | some m => rw [hys] at h; simp at h
      | none =>
        show Option.map (fun x => x + 1) (idxOf? (ys ++ [x]) x) = some (y :: ys).length
        rw [ih hys]
        simp

/-- Embeds `idxOf?` finds the element it reports. -/
theorem idxOf?_get? {α : Type} [DecidableEq α] {l : List α} {x : α} {n : Nat}
    (h : idxOf? l x = some n) : l.get? n = some x := by
  induction l generalizing n with
  | nil => simp [idxOf?] at h
  | cons y ys ih =>
    simp only [idxOf?] at h
    by_cases hy : y = x
    · rw [if_pos hy] at h
      injection h with h
      subst h
      simp [hy]
    · rw [if_neg hy] at h
      cases hys : idxOf? ys x with
      | none => rw [hys] at h; simp at h
      | some m =>
        rw [hys] at h
        have hmn : m + 1 = n := by injection h
        subst hmn
        simpa using ih hys

/-- Getting the element appended at the end of a list. -/
theorem get?_append_length {α : Type} (l : List α) (x : α) :
    (l ++ [x]).get? l.length = some x := by
  induction l with
  | nil => rfl
  | cons y ys ih => simp only [List.cons_append, List.length_cons, List.get?_cons_succ]; exact ih

/-- C5: registering the same raw symbolic identifiers twice is
de-duplicated by interning: once `get_or_intern` has interned a value and
returned its id, interning the same value again returns that same id with
the interner unchanged (no duplicate entry), and looking up the id
returns the originally stored value. -/
theorem interner_get_or_intern_idempotent (i : Interner RawIdentifiers)
    (x : RawIdentifiers) (n : Nat) (i' : Interner RawIdentifiers)
    (h : i.get_or_intern x = (n, i')) :
    i'.get_or_intern x = (n, i') ∧ i'.lookup n = some x := by
  unfold Interner.get_or_intern at h
  cases hidx : idxOf? i.items x with
  | some m =>
    rw [hidx] at h
    obtain ⟨rfl, rfl⟩ := Prod.mk.injEq .. ▸ h
    constructor
    · unfold Interner.get_or_intern
      rw [hidx]
    · exact idxOf?_get? hidx
  | none =>
    rw [hidx] at h
    obtain ⟨rfl, rfl⟩ := Prod.mk.injEq .. ▸ h
    have hfound : idxOf? (i.items ++ [x]) x = some i.items.length :=
      idxOf?_append_self hidx
    constructor
    · unfold Interner.get_or_intern
      rw [show (Interner.mk (i.items ++ [x])).items = i.items ++ [x] from rfl, hfound]
    · exact get?_append_length i.items x

/-- Witness for C5 at a concrete input: interning `app::c` into the empty
identifiers interner and re-interning it. -/
theorem interner_get_or_intern_idempotent_witness :
    (Interner.empty.get_or_intern (⟨"app::c"⟩ : RawIdentifiers) =
      (0, ⟨[⟨"app::c"⟩]⟩)) ∧
    (Interner.mk [(⟨"app::c"⟩ : RawIdentifiers)]).get_or_intern ⟨"app::c"⟩ =
      (0, ⟨[⟨"app::c"⟩]⟩) ∧
    (Interner.mk [(⟨"app::c"⟩ : RawIdentifiers)]).lookup 0 = some ⟨"app::c"⟩ :=
  ⟨by decide, interner_get_or_intern_idempotent Interner.empty ⟨"app::c"⟩ 0
    ⟨[⟨"app::c"⟩]⟩ (by decide)⟩

/-- C10: a `WrappingMiddleware` built by `new` has no error handler;
`error_handler` sets it to the supplied callable while keeping the
middleware's own callable; a repeated call keeps only the last-supplied
handler. -/
theorem wrapping_middleware_error_handler_spec :
    ∀ (c e e1 e2 : WithLocation RawIdentifiers) (m : WrappingMiddleware),
      (WrappingMiddleware.new c).error_handler = none ∧
      (WrappingMiddleware.new c).callable = raw_identifiers2callable c ∧
      (m.set_error_handler e).callable = m.callable ∧
      (m.set_error_handler e).error_handler = some (raw_identifiers2callable e) ∧
      (m.set_error_handler e1).set_error_handler e2 = m.set_error_handler e2 := by
  intro c e e1 e2 m
  exact ⟨rfl, rfl, rfl, rfl, rfl⟩

/-- C7: after `build` hands out the database, every public read accessor
leaves it unchanged — each operation returns the very database it was
given, mutating no component, lifecycle, cloning-strategy or scope-graph
entry. -/
theorem user_component_db_accessors_pure :
    ∀ (db : UserComponentDb) (id : UserComponentId),
      (db.iter).2 = db ∧
      (db.constructors).2 = db ∧
      (db.prebuilt_types).2 = db ∧
      (db.config_types).2 = db ∧
      (db.request_handlers).2 = db ∧
      (db.wrapping_middlewares).2 = db ∧
      (db.post_processing_middlewares).2 = db ∧
      (db.pre_processing_middlewares).2 = db ∧
      (db.error_observers).2 = db ∧
      (db.get_lifecycle id).2 = db ∧
      (db.get_location id).2 = db ∧
      (db.get_cloning_strategy id).2 = db ∧
      (db.get_default_strategy id).2 = db ∧
      (db.scope_graph_ref).2 = db ∧
      (db.get_raw_callable_identifiers id).2 = db ∧
      (db.get_middleware_ids id).2 = db ∧
      (db.get_lints id).2 = db ∧
      (db.get_error_observer_ids id).2 = db ∧
      (db.index id).2 = db := by
  intro db id
  exact ⟨rfl, rfl, rfl, rfl, rfl, rfl, rfl, rfl, rfl, rfl, rfl, rfl, rfl, rfl,
    rfl, rfl, rfl, rfl, rfl⟩

/-- C4: `UserComponentDb::build` is deterministic — two runs over the
same unchanged inputs (blueprint-derived stage outcomes, databases and
incoming diagnostics) produce identical results: the same stages run, the
same diagnostics in the same order, and on success the same router and
the same database with the same component ids. -/
theorem build_deterministic (s1 s2 : BuildStages)
    (cdb1 cdb2 : ComputationDb) (pdb1 pdb2 : PrebuiltTypeDb)
    (cfdb1 cfdb2 : ConfigTypeDb) (entry1 entry2 : List Diagnostic)
    (hs : s1 = s2) (hc : cdb1 = cdb2) (hp : pdb1 = pdb2)
    (hcf : cfdb1 = cfdb2) (he : entry1 = entry2) :
    UserComponentDb.build s1 cdb1 pdb1 cfdb1 entry1 =
      UserComponentDb.build s2 cdb2 pdb2 cfdb2 entry2 := by
  subst hs hc hp hcf he
  rfl

/-- Witness for C4 at a concrete input: two runs over the fixture
stage outcomes coincide. -/
theorem build_deterministic_witness :
    UserComponentDb.build exStages [] emptyPrebuiltDb emptyConfigDb [] =
      UserComponentDb.build exStages [] emptyPrebuiltDb emptyConfigDb [] :=
  build_deterministic exStages exStages [] [] emptyPrebuiltDb emptyPrebuiltDb
    emptyConfigDb emptyConfigDb [] [] rfl rfl rfl rfl rfl

/-- Embeds `UserComponentDb::build` is exactly the three-checkpoint staged
pipeline: one batched diagnostics check after routing, one after doc
precomputation, one after type resolution and interning. -/
theorem build_eq_stagedBuildSpec (s : BuildStages) (cdb : ComputationDb)
    (pdb : PrebuiltTypeDb) (cfdb : ConfigTypeDb) (entry : List Diagnostic) :
    UserComponentDb.build s cdb pdb cfdb entry =
      stagedBuildSpec s cdb pdb cfdb entry := by
  unfold UserComponentDb.build stagedBuildSpec
  cases s.router with
  | none => simp
  | some r =>
    by_cases h : entry ++ s.raw_diags ++ s.resolved_path_diags ++ s.router_diags = []
    · obtain ⟨h2, h3⟩ := List.append_eq_nil.mp h
      obtain ⟨h4, h5⟩ := List.append_eq_nil.mp h2
      obtain ⟨h6, h7⟩ := List.append_eq_nil.mp h4
      by_cases hd : s.docs_diags = []
      · simp only [h3, h5, h6, h7, hd]
        simp only [List.append_nil, List.nil_append, List.isEmpty_nil, Bool.not_true,
          Bool.false_eq_true, if_false]
        split_ifs with h9
        · simp
        · simp at h9
          simp [h9]
      · simp [h3, h5, h6, h7, List.isEmpty_eq_false.mpr hd]
    · have h' : (!(entry ++ s.raw_diags ++ s.resolved_path_diags
          ++ s.router_diags).isEmpty) = true := by
        rw [List.isEmpty_eq_false.mpr h]
        rfl
      simp only [h', if_true]
      simp

/-- If `build` returns `Ok`, the returned database is the raw database's
fields repacked with the scope graph. -/
theorem build_ok_db (s : BuildStages) (cdb : ComputationDb)
    (pdb : PrebuiltTypeDb) (cfdb : ConfigTypeDb) (entry : List Diagnostic)
    (r : Router) (db : UserComponentDb)
    (h : (UserComponentDb.build s cdb pdb cfdb entry).2.2 = .ok (r, db)) :
    db = UserComponentDb.fromRaw s.raw_db s.scope_graph := by
  rw [build_eq_stagedBuildSpec] at h
  unfold stagedBuildSpec at h
  cases hr : s.router with
  | none => rw [hr] at h; simp at h
  | some router =>
    rw [hr] at h
    simp only at h
    by_cases h1 : entry ++ s.raw_diags ++ s.resolved_path_diags ++ s.router_diags = []
    · rw [h1] at h
      simp only [List.isEmpty_nil, Bool.not_true, Bool.false_eq_true, if_false] at h
      by_cases h2 : s.docs_diags = []
      · rw [h2] at h
        simp only [List.isEmpty_nil, Bool.not_true, Bool.false_eq_true, if_false] at h
        by_cases h3 : (resolve_and_intern_paths s.env s.raw_db
            ⟨cdb, pdb, cfdb, []⟩).diagnostics = []
        · rw [h3] at h
          simp at h
          exact h.2.symm
        · rw [if_pos (by rw [List.isEmpty_eq_false.mpr h3]; rfl)] at h
          simp at h
      · rw [if_pos (by rw [List.isEmpty_eq_false.mpr h2]; rfl)] at h
        simp at h
    · rw [if_pos (by rw [List.isEmpty_eq_false.mpr h1]; rfl)] at h
      simp at h

/-- C1 counterexample: with stage outcomes in which raw ingestion pushes
one diagnostic and every later step would succeed, the diagnostics list
is non-empty after the raw ingestion stage, yet `build` still runs the
path-resolution and routing stages before returning `Err(())` — it does
not fail fast after each individual stage. -/
theorem build_fail_fast_counterexample :
    cexStages.raw_diags ≠ [] ∧
    (UserComponentDb.build cexStages [] emptyPrebuiltDb emptyConfigDb []).1 =
      [Stage.rawIngestion, Stage.pathResolution, Stage.routing] ∧
    Stage.pathResolution ∈
      (UserComponentDb.build cexStages [] emptyPrebuiltDb emptyConfigDb []).1 ∧
    Stage.routing ∈
      (UserComponentDb.build cexStages [] emptyPrebuiltDb emptyConfigDb []).1 ∧
    (UserComponentDb.build cexStages [] emptyPrebuiltDb emptyConfigDb []).2.2 =
      .error () := by
  refine ⟨by decide, rfl, by decide, by decide, rfl⟩

/-- C1 (amended): the pipeline batches raw ingestion, path resolution and
routing before its first diagnostics check; `Router::new`'s own failure
aborts immediately; after that, doc precomputation and type
resolution/interning are each followed by a diagnostics check, and a
non-empty diagnostics list at any checkpoint yields `Err(())` without
running any later stage. -/
theorem build_staged_fail_fast (s : BuildStages) (cdb : ComputationDb)
    (pdb : PrebuiltTypeDb) (cfdb : ConfigTypeDb) (entry : List Diagnostic) :
    UserComponentDb.build s cdb pdb cfdb entry =
      stagedBuildSpec s cdb pdb cfdb entry :=
  build_eq_stagedBuildSpec s cdb pdb cfdb entry

/-- C8: `build` returns `Ok` exactly when the shared diagnostics vector
is empty when it finishes, and a diagnostics vector that is non-empty on
entry forces `Err(())`. The one step whose body is outside the extracted
sources, `Router::new`, is assumed to push at least one diagnostic
whenever it fails (hypothesis `hr`). -/
theorem build_ok_iff_no_diagnostics (s : BuildStages) (cdb : ComputationDb)
    (pdb : PrebuiltTypeDb) (cfdb : ConfigTypeDb) (entry : List Diagnostic)
    (hr : s.router = none → s.router_diags ≠ []) :
    ((UserComponentDb.build s cdb pdb cfdb entry).2.2.isOk = true ↔
      (UserComponentDb.build s cdb pdb cfdb entry).2.1 = []) ∧
    (entry ≠ [] →
      (UserComponentDb.build s cdb pdb cfdb entry).2.2 = .error ()) := by
  rw [build_eq_stagedBuildSpec]
  unfold stagedBuildSpec
  cases hrt : s.router with
  | none =>
    simp only
    constructor
    · simp only [Except.isOk, Except.toBool, Bool.false_eq_true, false_iff]
      intro hcontra
      exact hr hrt (List.append_eq_nil.mp hcontra).2
    · intro _
      trivial
  | some router =>
    simp only
    by_cases h1 : entry ++ s.raw_diags ++ s.resolved_path_diags ++ s.router_diags = []
    · obtain ⟨ha, hb⟩ := List.append_eq_nil.mp h1
      obtain ⟨hc, hd⟩ := List.append_eq_nil.mp ha
      obtain ⟨he, hf⟩ := List.append_eq_nil.mp hc
      rw [h1]
      simp only [List.isEmpty_nil, Bool.not_true, Bool.false_eq_true, if_false]
      by_cases h2 : s.docs_diags = []
      · rw [h2]
        simp only [List.isEmpty_nil, Bool.not_true, Bool.false_eq_true, if_false]
        by_cases h3 : (resolve_and_intern_paths s.env s.raw_db
            ⟨cdb, pdb, cfdb, []⟩).diagnostics = []
        · rw [h3]
          simp only [List.isEmpty_nil, Bool.not_true, Bool.false_eq_true, if_false]
          exact ⟨by simp [Except.isOk, Except.toBool], fun hne => absurd he hne⟩
        · rw [if_pos (by rw [List.isEmpty_eq_false.mpr h3]; rfl)]
          exact ⟨by simp [Except.isOk, Except.toBool, h3], fun hne => absurd he hne⟩
      · rw [if_pos (by rw [List.isEmpty_eq_false.mpr h2]; rfl)]
        exact ⟨by simp [Except.isOk, Except.toBool, h2], fun hne => absurd he hne⟩
    · rw [if_pos (by rw [List.isEmpty_eq_false.mpr h1]; rfl)]
      exact ⟨⟨fun hcontra => by simp [Except.isOk, Except.toBool] at hcontra,
        fun hc => absurd hc h1⟩, fun _ => rfl⟩

/-- Embeds `resolveOne` appends exactly the diagnostics of the component it
processes: one for a failing component, none for a resolving one. -/
theorem resolveOne_diagnostics (env : ResolutionEnv) (st : ResolveState)
    (idc : UserComponentId × UserComponent) :
    (resolveOne env st idc).diagnostics =
      st.diagnostics ++ componentDiags env idc := by
  obtain ⟨id, c⟩ := idc
  cases c <;>
    simp only [resolveOne, componentDiags] <;>
    (repeat' split) <;>
    simp [PrebuiltTypeDb.get_or_intern, ConfigTypeDb.get_or_intern]

/-- Embeds `resolveOne` interns exactly the callable of the component it
processes, when that component is callable-resolved successfully. -/
theorem resolveOne_computation (env : ResolutionEnv) (st : ResolveState)
    (idc : UserComponentId × UserComponent) :
    (resolveOne env st idc).computation_db =
      st.computation_db ++ (componentCallableBinding env idc).toList := by
  obtain ⟨id, c⟩ := idc
  cases c <;>
    simp only [resolveOne, componentCallableBinding] <;>
    (repeat' split) <;>
    simp [PrebuiltTypeDb.get_or_intern, ConfigTypeDb.get_or_intern]

/-- Embeds `resolveOne` binds exactly the prebuilt type of the component it
processes, when that component is a prebuilt type that validates. -/
theorem resolveOne_prebuilt (env : ResolutionEnv) (st : ResolveState)
    (idc : UserComponentId × UserComponent) :
    (resolveOne env st idc).prebuilt_type_db.id2type_id.map Prod.fst =
      st.prebuilt_type_db.id2type_id.map Prod.fst
        ++ (componentPrebuiltBinding env idc).toList := by
  obtain ⟨id, c⟩ := idc
  cases c <;>
    simp only [resolveOne, componentPrebuiltBinding] <;>
    (repeat' split) <;>
    simp [PrebuiltTypeDb.get_or_intern, ConfigTypeDb.get_or_intern]

/-- Embeds `resolveOne` binds exactly the config type of the component it
processes, when that component is a config type that validates. -/
theorem resolveOne_config (env : ResolutionEnv) (st : ResolveState)
    (idc : UserComponentId × UserComponent) :
    (resolveOne env st idc).config_type_db.id2type_id.map Prod.fst =
      st.config_type_db.id2type_id.map Prod.fst
        ++ (componentConfigBinding env idc).toList := by
  obtain ⟨id, c⟩ := idc
  cases c <;>
    simp only [resolveOne, componentConfigBinding] <;>
    (repeat' split) <;>
    simp [PrebuiltTypeDb.get_or_intern, ConfigTypeDb.get_or_intern]

/-- Folding `resolveOne` over a component list accumulates, in component
order, the concatenation of the per-component diagnostics. -/
theorem foldl_resolveOne_diagnostics (env : ResolutionEnv)
    (l : List (UserComponentId × UserComponent)) (st : ResolveState) :
    (l.foldl (resolveOne env) st).diagnostics =
      st.diagnostics ++ (l.map (componentDiags env)).flatten := by
  induction l generalizing st with
  | nil => simp
  | cons x xs ih =>
    simp only [List.foldl_cons, List.map_cons, List.flatten_cons]
    rw [ih, resolveOne_diagnostics, List.append_assoc]

/-- Folding `resolveOne` accumulates, in component order, the ids of the
components whose callables were interned. -/
theorem foldl_resolveOne_computation (env : ResolutionEnv)
    (l : List (UserComponentId × UserComponent)) (st : ResolveState) :
    (l.foldl (resolveOne env) st).computation_db =
      st.computation_db
        ++ (l.map (fun idc => (componentCallableBinding env idc).toList)).flatten := by
  induction l generalizing st with
  | nil => simp
  | cons x xs ih =>
    simp only [List.foldl_cons, List.map_cons, List.flatten_cons]
    rw [ih, resolveOne_computation, List.append_assoc]

/-- Folding `resolveOne` accumulates, in component order, the ids bound in
the prebuilt-type database. -/
theorem foldl_resolveOne_prebuilt (env : ResolutionEnv)
    (l : List (UserComponentId × UserComponent)) (st : ResolveState) :
    (l.foldl (resolveOne env) st).prebuilt_type_db.id2type_id.map Prod.fst =
      st.prebuilt_type_db.id2type_id.map Prod.fst
        ++ (l.map (fun idc => (componentPrebuiltBinding env idc).toList)).flatten := by
  induction l generalizing st with
  | nil => simp
  | cons x xs ih =>
    simp only [List.foldl_cons, List.map_cons, List.flatten_cons]
    rw [ih, resolveOne_prebuilt, List.append_assoc]

/-- Folding `resolveOne` accumulates, in component order, the ids bound in
the config-type database. -/
theorem foldl_resolveOne_config (env : ResolutionEnv)
    (l : List (UserComponentId × UserComponent)) (st : ResolveState) :
    (l.foldl (resolveOne env) st).config_type_db.id2type_id.map Prod.fst =
      st.config_type_db.id2type_id.map Prod.fst
        ++ (l.map (fun idc => (componentConfigBinding env idc).toList)).flatten := by
  induction l generalizing st with
  | nil => simp
  | cons x xs ih =>
    simp only [List.foldl_cons, List.map_cons, List.flatten_cons]
    rw [ih, resolveOne_config, List.append_assoc]

/-- C2: `resolve_and_intern_paths` never aborts on a failure. The loop
processes every component of the raw database in order: the final
diagnostics are the incoming ones followed by the concatenation, in
component order, of each component's own diagnostics (exactly one per
failing component, none per resolving component — last conjunct), and
every successfully resolved component is interned into its database
regardless of the failures of other components. -/
theorem resolve_and_intern_paths_batches (env : ResolutionEnv)
    (raw_db : RawUserComponentDb) (st : ResolveState) :
    ((resolve_and_intern_paths env raw_db st).diagnostics =
      st.diagnostics ++ (raw_db.iter.map (componentDiags env)).flatten) ∧
    ((resolve_and_intern_paths env raw_db st).computation_db =
      st.computation_db ++
        (raw_db.iter.map (fun idc => (componentCallableBinding env idc).toList)).flatten) ∧
    ((resolve_and_intern_paths env raw_db st).prebuilt_type_db.id2type_id.map Prod.fst =
      st.prebuilt_type_db.id2type_id.map Prod.fst ++
        (raw_db.iter.map (fun idc => (componentPrebuiltBinding env idc).toList)).flatten) ∧
    ((resolve_and_intern_paths env raw_db st).config_type_db.id2type_id.map Prod.fst =
      st.config_type_db.id2type_id.map Prod.fst ++
        (raw_db.iter.map (fun idc => (componentConfigBinding env idc).toList)).flatten) ∧
    (∀ idc : UserComponentId × UserComponent,
      componentDiags env idc = [] ∨ ∃ d, componentDiags env idc = [d]) := by
  refine ⟨foldl_resolveOne_diagnostics env raw_db.iter st,
    foldl_resolveOne_computation env raw_db.iter st,
    foldl_resolveOne_prebuilt env raw_db.iter st,
    foldl_resolveOne_config env raw_db.iter st, ?_⟩
  intro ⟨id, c⟩
  cases c <;>
    simp only [componentDiags] <;>
    (repeat' split) <;>
    simp

/-- A type with a named or elided lifetime parameter, or an unassigned
generic type parameter, fails prebuilt-type validation. -/
theorem prebuiltType_new_fails {ty : Ty}
    (h : ty.hasNonStaticLifetime = true ∨ ty.unassigned_generics ≠ []) :
    ∃ e, PrebuiltType.new ty = .error e := by
  unfold PrebuiltType.new
  rcases h with h | h
  · rw [if_pos h]
    exact ⟨_, rfl⟩
  · by_cases hl : ty.hasNonStaticLifetime
    · rw [if_pos hl]
      exact ⟨_, rfl⟩
    · rw [if_neg hl, if_pos (by simpa using h)]
      exact ⟨_, rfl⟩

/-- A type with any lifetime parameter at all, or an unassigned generic
type parameter, fails config-type validation. -/
theorem configType_new_fails {ty : Ty} (key : String) (keyOk : Bool)
    (h : ty.lifetimes ≠ [] ∨ ty.unassigned_generics ≠ []) :
    ∃ e, ConfigType.new ty key keyOk = .error e := by
  unfold ConfigType.new
  rcases h with h | h
  · rw [if_pos (by simpa using h)]
    exact ⟨_, rfl⟩
  · by_cases hl : ty.lifetimes = []
    · rw [if_neg (by simpa using hl), if_pos (by simpa using h)]
      exact ⟨_, rfl⟩
    · rw [if_pos (by simpa using hl)]
      exact ⟨_, rfl⟩

/-- C6: for a prebuilt or config component whose path resolves to a type
with a disallowed lifetime parameter (named or elided for prebuilt types;
any at all, `'static` included, for config types) or an unassigned
generic type parameter, validation fails, exactly one diagnostic for that
component is pushed, and the type is not interned (the state is otherwise
untouched); for every other component kind these two checks are not
applied — the component goes through callable resolution instead. -/
theorem prebuilt_config_type_checks (env : ResolutionEnv) (st : ResolveState)
    (id : UserComponentId) :
    (∀ rid ty, env.resolve_type_path (env.resolved_path_db id) = .ok ty →
      ty.hasNonStaticLifetime = true ∨ ty.unassigned_generics ≠ [] →
      ∃ e, PrebuiltType.new ty = .error e ∧
        resolveOne env st (id, .prebuiltType rid) =
          { st with diagnostics := st.diagnostics ++ [.invalidPrebuiltType id e] }) ∧
    (∀ rid key ty, env.resolve_type_path (env.resolved_path_db id) = .ok ty →
      ty.lifetimes ≠ [] ∨ ty.unassigned_generics ≠ [] →
      ∃ e, ConfigType.new ty key (env.config_key_ok key) = .error e ∧
        resolveOne env st (id, .configType rid key) =
          { st with diagnostics := st.diagnostics ++ [.invalidConfigType id e] }) ∧
    (∀ c : UserComponent, (∀ rid, c ≠ .prebuiltType rid) →
      (∀ rid key, c ≠ .configType rid key) →
      resolveOne env st (id, c) =
        match env.resolve_callable (env.resolved_path_db id) with
        | .ok _ => { st with computation_db := st.computation_db ++ [id] }
        | .error e =>
          { st with diagnostics := st.diagnostics ++ [.cannotResolveCallablePath id e] }) := by
  refine ⟨?_, ?_, ?_⟩
  · intro rid ty hty hbad
    obtain ⟨e, he⟩ := prebuiltType_new_fails hbad
    exact ⟨e, he, by simp [resolveOne, hty, he]⟩
  · intro rid key ty hty hbad
    obtain ⟨e, he⟩ := configType_new_fails key (env.config_key_ok key) hbad
    exact ⟨e, he, by simp [resolveOne, hty, he]⟩
  · intro c hp hc
    cases c with
    | prebuiltType rid => exact absurd rfl (hp rid)
    | configType rid key => exact absurd rfl (hc rid key)
    | constructor rid => rfl
    | requestHandler rid => rfl
    | fallback rid => rfl
    | wrappingMiddleware rid => rfl
    | preProcessingMiddleware rid => rfl
    | postProcessingMiddleware rid => rfl
    | errorObserver rid => rfl

/-- Witness for C6 at concrete inputs: a prebuilt type and a config type
whose resolved type has the named lifetime parameter `'a`, and a
constructor that goes through callable resolution untouched by the type
checks. -/
theorem prebuilt_config_type_checks_witness :
    (∃ e, PrebuiltType.new ⟨[.named "a"], []⟩ = .error e ∧
      resolveOne badEnv emptyResolveState (0, .prebuiltType 7) =
        { emptyResolveState with diagnostics :=
            emptyResolveState.diagnostics ++ [.invalidPrebuiltType 0 e] }) ∧
    (∃ e, ConfigType.new ⟨[.named "a"], []⟩ "k" (badEnv.config_key_ok "k") = .error e ∧
      resolveOne badEnv emptyResolveState (0, .configType 7 "k") =
        { emptyResolveState with diagnostics :=
            emptyResolveState.diagnostics ++ [.invalidConfigType 0 e] }) ∧
    (resolveOne badEnv emptyResolveState (0, .constructor 7) =
      match badEnv.resolve_callable (badEnv.resolved_path_db 0) with
      | .ok _ => { emptyResolveState with computation_db :=
          emptyResolveState.computation_db ++ [0] }
      | .error e => { emptyResolveState with diagnostics :=
          emptyResolveState.diagnostics ++ [.cannotResolveCallablePath 0 e] }) :=
  ⟨(prebuilt_config_type_checks badEnv emptyResolveState 0).1 7
      ⟨[.named "a"], []⟩ rfl (Or.inl rfl),
   (prebuilt_config_type_checks badEnv emptyResolveState 0).2.1 7 "k"
      ⟨[.named "a"], []⟩ rfl (Or.inl (by simp)),
   (prebuilt_config_type_checks badEnv emptyResolveState 0).2.2
      (.constructor 7) (fun _ h => nomatch h) (fun _ _ h => nomatch h)⟩

/-- C9: `SnapshotTest::verify` treats a missing expectation file exactly
like an empty one (same verdict, same final `.snap` content), and in
general returns `Ok` precisely when the sanitized expected text equals
the sanitized actual text (the actual text having its hashed app name
replaced by `app` first); on a mismatch it writes the sanitized actual
value to the sibling `.snap` file and returns `Err`, on a match it
removes the `.snap` file. -/
theorem snapshot_verify_spec (t : SnapshotTest) (actual : String) (fs : SnapshotFs) :
    ((t.verify actual { fs with expectation := none }).1 =
      (t.verify actual { fs with expectation := some "" }).1 ∧
     (t.verify actual { fs with expectation := none }).2.snap =
      (t.verify actual { fs with expectation := some "" }).2.snap) ∧
    (t.verify actual fs =
      if sanitize_output (match fs.expectation with | some s => s | none => "") =
          sanitize_output (actual.replace t.app_name_with_hash "app") then
        (.ok (), { fs with snap := none })
      else
        (.error (),
         { fs with
            snap := some (sanitize_output (actual.replace t.app_name_with_hash "app")) })) := by
  constructor
  · by_cases h : sanitize_output "" =
        sanitize_output (actual.replace t.app_name_with_hash "app")
    · simp [SnapshotTest.verify, h]
    · simp [SnapshotTest.verify, h]
  · simp only [SnapshotTest.verify]
    split_ifs with h1 h2
    · rfl
    · rfl
    · exact absurd (not_not.mp h1) h2

/-- A decidable `all` over an enumerated list applies to every indexed
element. -/
theorem enum_all_get? {α : Type} {l : List α} {p : Nat × α → Bool}
    (h : l.enum.all p = true) {n : Nat} {a : α} (hget : l.get? n = some a) :
    p (n, a) = true := by
  have hmem : (n, a) ∈ l.enum := by
    rw [List.mem_enum_iff_getElem?]
    rw [← List.get?_eq_getElem?]
    exact hget
  exact List.all_eq_true.mp h _ hmem

/-- C3: in a successfully built `UserComponentDb` (over a raw database
satisfying the ingestion invariants), every constructor, prebuilt value
and config value has a cloning-strategy entry and a lifecycle entry
(`get_cloning_strategy` returns `Some`), `get_cloning_strategy` returns
`None` for every other component kind, and every request handler has
middleware-id and error-observer-id lists retrievable through
`get_middleware_ids` and `get_error_observer_ids`. -/
theorem user_component_db_metadata_complete (s : BuildStages)
    (cdb : ComputationDb) (pdb : PrebuiltTypeDb) (cfdb : ConfigTypeDb)
    (entry : List Diagnostic) (router : Router) (db : UserComponentDb)
    (hwf : s.raw_db.wellFormed = true)
    (hok : (UserComponentDb.build s cdb pdb cfdb entry).2.2 = .ok (router, db)) :
    ∀ id c, db.component_interner.lookup id = some c →
      (c.isConstructible = true →
        ((db.get_cloning_strategy id).1.isSome = true ∧
         (db.get_lifecycle id).1.isSome = true)) ∧
      (c.isConstructible = false → (db.get_cloning_strategy id).1 = none) ∧
      (c.isRequestHandler = true →
        ((db.get_middleware_ids id).1.isSome = true ∧
         (db.get_error_observer_ids id).1.isSome = true)) := by
  have hdb := build_ok_db s cdb pdb cfdb entry router db hok
  subst hdb
  intro id c hlook
  have hget : s.raw_db.component_interner.items.get? id = some c := hlook
  unfold RawUserComponentDb.wellFormed RawUserComponentDb.iter at hwf
  have hall := enum_all_get? hwf hget
  simp only [Bool.and_eq_true] at hall
  obtain ⟨h1, h2⟩ := hall
  refine ⟨fun hcon => ?_, fun hcon => ?_, fun hreq => ?_⟩
  · rw [if_pos hcon] at h1
    rw [Bool.and_eq_true] at h1
    exact h1
  · rw [if_neg (by simp [hcon])] at h1
    simpa [Option.isNone_iff_eq_none] using h1
  · rw [if_pos hreq] at h2
    rw [Bool.and_eq_true] at h2
    exact h2

/-- Witness for C3 at a concrete input: the fixture database, whose
constructor (id 0) has cloning and lifecycle entries and whose request
handler (id 1) has no cloning entry but has middleware and error-observer
lists. -/
theorem user_component_db_metadata_complete_witness :
    (((UserComponentDb.fromRaw exRawDb exScopeGraph).get_cloning_strategy 0).1.isSome = true ∧
     ((UserComponentDb.fromRaw exRawDb exScopeGraph).get_lifecycle 0).1.isSome = true) ∧
    (((UserComponentDb.fromRaw exRawDb exScopeGraph).get_cloning_strategy 1).1 = none) ∧
    (((UserComponentDb.fromRaw exRawDb exScopeGraph).get_middleware_ids 1).1.isSome = true ∧
     ((UserComponentDb.fromRaw exRawDb exScopeGraph).get_error_observer_ids 1).1.isSome = true) :=
  ⟨(user_component_db_metadata_complete exStages [] emptyPrebuiltDb emptyConfigDb []
      exRouter (UserComponentDb.fromRaw exRawDb exScopeGraph) (by decide) rfl
      0 (.constructor 0) (by decide)).1 rfl,
   (user_component_db_metadata_complete exStages [] emptyPrebuiltDb emptyConfigDb []
      exRouter (UserComponentDb.fromRaw exRawDb exScopeGraph) (by decide) rfl
      1 (.requestHandler 1) (by decide)).2.1 rfl,
   (user_component_db_metadata_complete exStages [] emptyPrebuiltDb emptyConfigDb []
      exRouter (UserComponentDb.fromRaw exRawDb exScopeGraph) (by decide) rfl
      1 (.requestHandler 1) (by decide)).2.2 rfl⟩

/-- Witness for C8 at concrete inputs: with the all-success fixture, a
diagnostic present on entry forces `Err(())`, and on an empty entry the
success/emptiness equivalence holds. -/
theorem build_ok_iff_no_diagnostics_witness :
    ((UserComponentDb.build exStages [] emptyPrebuiltDb emptyConfigDb
        [.other 1]).2.2 = .error ()) ∧
    ((UserComponentDb.build exStages [] emptyPrebuiltDb emptyConfigDb
        []).2.2.isOk = true ↔
      (UserComponentDb.build exStages [] emptyPrebuiltDb emptyConfigDb
        []).2.1 = []) :=
  ⟨(build_ok_iff_no_diagnostics exStages [] emptyPrebuiltDb emptyConfigDb
      [.other 1] (fun h => absurd h (by decide))).2 (by decide),
   (build_ok_iff_no_diagnostics exStages [] emptyPrebuiltDb emptyConfigDb
      [] (fun h => absurd h (by decide))).1⟩

end Pavex
